import Mathlib

/-!
Shallow embedding of the WhatsApp group link validator (src/app.py) and
proofs about its classification behaviour.

The program is an HTTP client: network responses and the HTML documents
parsed out of them by external libraries are modelled as oracle inputs
(`FetchOutcome`, `Page`), while the control flow and string processing of
the program itself are translated directly from the source.
-/

namespace App

/- ## Basic character-list machinery mirroring Python string operations -/

/-- Bool test: does the second list start with the first one. -/
def listStarts : List Char → List Char → Bool
  | [], _ => true
  | _ :: _, [] => false
  | a :: as, b :: bs => a == b && listStarts as bs

/-- Bool test: does the needle occur as a contiguous sublist of the
haystack.  Models the Python `in` operator on strings. -/
def containsSubList (needle : List Char) : List Char → Bool
  | [] => listStarts needle []
  | c :: rest => listStarts needle (c :: rest) || containsSubList needle rest

/-- Python substring containment test `needle in haystack` on strings. -/
def containsSubStr (needle haystack : String) : Bool :=
  containsSubList needle.data haystack.data

/-- Characters treated as whitespace by Python str.strip (ASCII part). -/
def isSpaceChar (c : Char) : Bool :=
  c == ' ' || c == '\t' || c == '\n' || c == '\r' || c == '\x0b' || c == '\x0c'

/-- Python str.strip: remove leading and trailing whitespace. -/
def pyStrip (l : List Char) : List Char :=
  ((l.dropWhile isSpaceChar).reverse.dropWhile isSpaceChar).reverse

/-- Python str.strip on strings. -/
def pyStripS (s : String) : String := ⟨pyStrip s.data⟩

/-- Python str.split with a one-character separator given as a newline,
preserving empty fields, as used on the manual-entry text area. -/
def splitLines : List Char → List (List Char)
  | [] => [[]]
  | c :: rest =>
    match splitLines rest with
    | [] => [[]]
    | l :: ls => if c == '\n' then [] :: l :: ls else (c :: l) :: ls

/-- Everything before the first occurrence of the separator (the whole
list when the separator does not occur). -/
def takeUntilSep (sep : List Char) : List Char → List Char
  | [] => []
  | c :: rest => if listStarts sep (c :: rest) then [] else c :: takeUntilSep sep rest

/- ## Constants from src/app.py lines 19-29 -/

/-- src/app.py line 19. -/
def WHATSAPP_DOMAIN : String := "https://chat.whatsapp.com/"

/-- The literal host part of IMAGE_PATTERN, src/app.py line 20. -/
def ppsHost : List Char := "https://pps.whatsapp.net/".data

/-- The internals of resolving the tail of IMAGE_PATTERN: after the amp
sign there must be at least one further non-amp character. -/
def afterAmp : List Char → Bool
  | [] => false
  | d :: _ => !(d == '&')

/-- Scan the characters after a jpg-question-mark position: any number of
non-amp characters, then an amp, then at least one non-amp character. -/
def scanAmp : List Char → Bool
  | [] => false
  | c :: rest => if c == '&' then afterAmp rest else scanAmp rest

/-- The literal characters of the jpg extension plus query marker inside
IMAGE_PATTERN. -/
def jpgTail : List Char := ['.', 'j', 'p', 'g', '?']

/-- Backtracking search for the IMAGE_PATTERN tail: a dot-star segment
(no newline), then the literal jpg extension and query marker, then the
query-parameter part checked by scanAmp. -/
def searchJpg : List Char → Bool
  | [] => false
  | c :: rest =>
    (listStarts jpgTail (c :: rest) && scanAmp (rest.drop 4)) ||
      (!(c == '\n') && searchJpg rest)

/-- Python re.match of IMAGE_PATTERN (src/app.py line 20): anchored at the
start, the fixed CDN host, any characters, a jpg extension, a query string
with at least two parameters. -/
def imagePatternMatch (s : String) : Bool :=
  listStarts ppsHost s.data && searchJpg (s.data.drop ppsHost.length)

/-- Membership of a character in the EMOJI_PATTERN ranges, src/app.py
lines 22-29. -/
def emojiChar (c : Char) : Bool :=
  let n := c.toNat
  (0x1F600 ≤ n && n ≤ 0x1F64F) || (0x1F300 ≤ n && n ≤ 0x1F5FF) ||
  (0x1F680 ≤ n && n ≤ 0x1F6FF) || (0x1F1E0 ≤ n && n ≤ 0x1F1FF) ||
  (0x2702 ≤ n && n ≤ 0x27B0) || (0x24C2 ≤ n && n ≤ 0x1F251)

/-- EMOJI_PATTERN.sub with the empty replacement: remove every character
in the emoji ranges (src/app.py line 114). -/
def emojiSub (s : String) : String := ⟨s.data.filter (fun c => !emojiChar c)⟩

/- ## The environment seen by validate_link -/

/-- The parsed HTML document of a successfully fetched invite page, as
exposed by the HTML library: the content of the og:title meta tag when the
tag and its content attribute are present, the src attributes of the img
tags that carry one (in document order), and the visible text of the
page. -/
structure Page where
  ogTitle : Option String
  imgSrcs : List String
  visibleText : String
deriving DecidableEq

/-- Outcome of the HTTP round trip issued by validate_link: a final
response (status code, final URL after redirects, parsed document), a
request-level failure, or any other exception raised while processing. -/
inductive FetchOutcome where
  | success (statusCode : Nat) (finalUrl : String) (page : Page)
  | requestError (msg : String)
  | otherError (msg : String)
deriving DecidableEq

/-- The validation record built by validate_link, src/app.py lines
86-91: fields Group Name, Group Link, Logo URL, Status. -/
structure Result where
  groupName : String
  groupLink : String
  logoUrl : String
  status : String
deriving DecidableEq

/-- The scan of src/app.py lines 119-125: walk the img srcs in document
order, unescape each, return the first one matching IMAGE_PATTERN. -/
def firstQualifyingImg (unesc : String → String) : List String → Option String
  | [] => none
  | s :: rest =>
    let u := unesc s
    if imagePatternMatch u then some u else firstQualifyingImg unesc rest

/-- validate_link, src/app.py lines 84-134.  The unescape function of the
html library is passed in as an oracle; the network round trip and the
parsed document arrive as the FetchOutcome oracle. -/
def validate_link (unesc : String → String) (link : String)
    (outcome : FetchOutcome) : Result :=
  match outcome with
  | .requestError msg => ⟨"Unknown", link, "", "Network Error: " ++ msg⟩
  | .otherError msg => ⟨"Unknown", link, "", "Error: " ++ msg⟩
  | .success code url page =>
    if code ≠ 200 then
      ⟨"Unknown", link, "", "HTTP Error " ++ toString code⟩
    else if containsSubStr WHATSAPP_DOMAIN url = false then
      ⟨"Unknown", link, "", "Invalid Link"⟩
    else
      let name :=
        match page.ogTitle with
        | some c => if c ≠ "" then emojiSub (pyStripS (unesc c)) else "Unnamed Group"
        | none => "Unnamed Group"
      match firstQualifyingImg unesc page.imgSrcs with
      | some u => ⟨name, link, u, "Active"⟩
      | none => ⟨name, link, "", "Expired"⟩

/-- The HTTP GET requests issued by one call of validate_link: src/app.py
line 99 unconditionally issues exactly one GET to the link itself, before
any classification of the link takes place. -/
def validate_link_network_calls (link : String) : List String := [link]

/- ## Candidate aggregation in main, src/app.py lines 236-273 -/

/-- Search-and-scrape mode, src/app.py lines 236-243: the per-page link
lists are concatenated and deduplicated through a set. -/
def search_mode_candidates (scraped : List (List String)) : List String :=
  (scraped.flatten).dedup

/-- Manual-entry mode, src/app.py line 265: split the text area on
newlines, strip each line, keep the non-empty ones.  No deduplication. -/
def manual_mode_candidates (links_text : String) : List String :=
  ((splitLines links_text.data).map (fun l => (⟨pyStrip l⟩ : String))).filter
    (fun s => s != "")

/- ## google_search, src/app.py lines 162-186 -/

/-- A request to the search endpoint: the query and the start offset. -/
structure SearchRequest where
  q : String
  start : Nat
deriving DecidableEq

/-- The HTTP GET requests issued by one call of google_search, src/app.py
lines 168-173: a single request with start offset 0, whatever the
requested number of results.  There is no pagination loop and no sleep
call anywhere in the function. -/
def google_search_requests (query : String) (topN : Nat) : List SearchRequest :=
  let _ := topN
  [⟨query, 0⟩]

/-- src/app.py lines 181-182: decode a search-result anchor href of the
redirect-wrapper form into the destination URL. -/
def decode_google_href (href : String) : Option String :=
  if listStarts ("/url?q=".data) href.data then
    some ⟨(takeUntilSep ("/url?q=".data) (href.data.drop 7)).takeWhile
      (fun c => !(c == '&'))⟩
  else none

/-- src/app.py lines 176-183: take at most topN result divs, read the
first anchor href of each when present, keep the decodable ones. -/
def google_search_results (divHrefs : List (Option String)) (topN : Nat) :
    List String :=
  (divHrefs.take topN).filterMap (fun h => h.bind decode_google_href)

/- ## Concrete inputs used by counterexamples and witnesses -/

/-- A shape-correct invite link: the chat domain plus a 22-character
alphanumeric token. -/
def lkA : String := "https://chat.whatsapp.com/" ++ String.mk (List.replicate 22 'A')

/-- A CDN image URL accepted by IMAGE_PATTERN: the fixed host, a jpg
path, two query parameters. -/
def goodSrc : String := "https://pps.whatsapp.net/v/t61.24694-24/photo.jpg?ccb=1&oh=abc"

/-- A manual-entry text area holding the same invite link on five
lines. -/
def fiveLines : String := lkA ++ "\n" ++ lkA ++ "\n" ++ lkA ++ "\n" ++ lkA ++ "\n" ++ lkA

/- ## Helper lemmas -/

theorem firstQualifyingImg_match (unesc : String → String) :
    ∀ l u, firstQualifyingImg unesc l = some u → imagePatternMatch u = true := by
  intro l
  induction l with
  | nil => intro u h; simp [firstQualifyingImg] at h
  | cons s rest ih =>
    intro u h
    by_cases hm : imagePatternMatch (unesc s) = true
    · simp [firstQualifyingImg, hm] at h
      rw [← h]; exact hm
    · simp [firstQualifyingImg, hm] at h
      exact ih u h

theorem firstQualifyingImg_none_iff (unesc : String → String) :
    ∀ l, firstQualifyingImg unesc l = none ↔
      l.any (fun s => imagePatternMatch (unesc s)) = false := by
  intro l
  induction l with
  | nil => simp [firstQualifyingImg]
  | cons s rest ih =>
    by_cases hm : imagePatternMatch (unesc s) = true
    · simp [firstQualifyingImg, hm]
    · simp [firstQualifyingImg, hm, ih]

/- ## C1 -/

/-- C1 counterexample: a well-formed link whose resolution succeeds with
status 200 but lands off the chat domain (the homepage redirect) is
classified Invalid Link with groupName Unknown by validate_link, not
Expired with groupName Expired as the claim states. -/
theorem c1_counterexample :
    (validate_link id lkA
      (.success 200 "https://www.whatsapp.com/" ⟨none, [], ""⟩)).status =
        "Invalid Link" ∧
    (validate_link id lkA
      (.success 200 "https://www.whatsapp.com/" ⟨none, [], ""⟩)).groupName =
        "Unknown" ∧
    ¬ ((validate_link id lkA
      (.success 200 "https://www.whatsapp.com/" ⟨none, [], ""⟩)).status =
        "Expired") := by
  refine ⟨rfl, rfl, ?_⟩; decide

/-- C1 amended: for every link whose resolution succeeds with a 200 final
status but whose final URL does not contain the fixed chat domain,
validate_link classifies the link as Invalid Link, leaving groupName at
its Unknown default and logoUrl empty. -/
theorem c1_offsite_is_invalid (unesc : String → String) (link : String)
    (code : Nat) (url : String) (page : Page) (h200 : code = 200)
    (hdom : containsSubStr WHATSAPP_DOMAIN url = false) :
    validate_link unesc link (.success code url page) =
      ⟨"Unknown", link, "", "Invalid Link"⟩ := by
  subst h200
  simp [validate_link, hdom]

/-- C1 witness: the amended theorem applied at the homepage-redirect
response. -/
theorem c1_offsite_is_invalid_witness :
    ((200 : Nat) = 200 ∧
      containsSubStr WHATSAPP_DOMAIN "https://www.whatsapp.com/" = false) ∧
    validate_link id lkA
      (.success 200 "https://www.whatsapp.com/" ⟨some "WhatsApp", [], ""⟩) =
        ⟨"Unknown", lkA, "", "Invalid Link"⟩ :=
  ⟨⟨rfl, by decide⟩,
    c1_offsite_is_invalid id lkA 200 "https://www.whatsapp.com/"
      ⟨some "WhatsApp", [], ""⟩ rfl (by decide)⟩

/- ## C4 -/

/-- C4 counterexample: the malformed string from the spec scenario, fed
to manual entry, survives candidate extraction and is handed to
validate_link, which issues a network request for it — no pre-network
Invalid classification exists. -/
theorem c4_counterexample :
    manual_mode_candidates "https://example.com/not-a-group" =
      ["https://example.com/not-a-group"] ∧
    validate_link_network_calls "https://example.com/not-a-group" =
      ["https://example.com/not-a-group"] ∧
    ¬ (validate_link_network_calls "https://example.com/not-a-group" = []) := by
  refine ⟨?_, rfl, ?_⟩ <;> decide

/-- C4 amended: no shape pre-filtering exists; every stripped non-empty
manual-entry line, well-formed or not, is dispatched to validate_link,
which unconditionally issues exactly one HTTP GET to it. -/
theorem c4_no_shape_filter (txt link : String)
    (h : link ∈ manual_mode_candidates txt) :
    validate_link_network_calls link = [link] ∧
    validate_link_network_calls link ≠ [] := by
  exact ⟨rfl, by simp [validate_link_network_calls]⟩

/-- C4 witness: the amended theorem applied to the malformed string in
manual-entry mode. -/
theorem c4_no_shape_filter_witness :
    ("https://example.com/not-a-group" ∈
      manual_mode_candidates "https://example.com/not-a-group") ∧
    (validate_link_network_calls "https://example.com/not-a-group" =
      ["https://example.com/not-a-group"] ∧
     validate_link_network_calls "https://example.com/not-a-group" ≠ []) :=
  ⟨by decide,
    c4_no_shape_filter "https://example.com/not-a-group"
      "https://example.com/not-a-group" (by decide)⟩

/- ## C5 -/

/-- C5 counterexample: a 200 on-domain page whose visible text contains
the phrase expired, but which carries an og:title and a qualifying CDN
image, is classified Active with the extracted name — the code performs
no expiration-phrase scan and does not short-circuit to Expired. -/
theorem c5_counterexample :
    containsSubStr "expired" "This invite link has expired" = true ∧
    (validate_link id lkA
      (.success 200 lkA
        ⟨some "Book Club", [goodSrc], "This invite link has expired"⟩)).status =
      "Active" ∧
    ¬ ((validate_link id lkA
      (.success 200 lkA
        ⟨some "Book Club", [goodSrc], "This invite link has expired"⟩)).status =
      "Expired") ∧
    (validate_link id lkA
      (.success 200 lkA
        ⟨some "Book Club", [goodSrc], "This invite link has expired"⟩)).groupName =
      "Book Club" := by
  refine ⟨?_, ?_, ?_, ?_⟩ <;> decide

/-- C5 amended: validate_link never inspects the visible text of the
page; its result is invariant under arbitrary changes of the visible
text, so no expiration-phrase scan or short-circuit exists. -/
theorem c5_no_text_scan (unesc : String → String) (link : String)
    (code : Nat) (url : String) (title : Option String) (imgs : List String)
    (t t' : String) :
    validate_link unesc link (.success code url ⟨title, imgs, t⟩) =
      validate_link unesc link (.success code url ⟨title, imgs, t'⟩) := rfl

/- ## C6 -/

/-- C6 counterexample: a 204 final status — a 2xx — is not passed on to
the domain check as the claim states; the code compares against the
single value 200 and classifies the link as an HTTP error. -/
theorem c6_counterexample :
    (validate_link id lkA
      (.success 204 lkA ⟨some "Book Club", [goodSrc], ""⟩)).status =
      "HTTP Error 204" ∧
    ¬ ((validate_link id lkA
      (.success 204 lkA ⟨some "Book Club", [goodSrc], ""⟩)).status = "Active") := by
  refine ⟨rfl, ?_⟩; decide

/-- C6 amended: every final status other than exactly 200 yields an HTTP
Error result carrying the status code; only a 200 response proceeds to
the domain check. -/
theorem c6_non200_is_error (unesc : String → String) (link : String)
    (code : Nat) (url : String) (page : Page) (h : code ≠ 200) :
    validate_link unesc link (.success code url page) =
      ⟨"Unknown", link, "", "HTTP Error " ++ toString code⟩ := by
  simp [validate_link, h]

/-- C6 witness: the amended theorem applied at a 404 response. -/
theorem c6_non200_is_error_witness :
    ((404 : Nat) ≠ 200) ∧
    validate_link id lkA (.success 404 lkA ⟨none, [], ""⟩) =
      ⟨"Unknown", lkA, "", "HTTP Error " ++ toString (404 : Nat)⟩ :=
  ⟨by decide, c6_non200_is_error id lkA 404 lkA ⟨none, [], ""⟩ (by decide)⟩

/- ## C2 -/

/-- C2: for a 200 response on the chat domain with no expiration text,
the status is Active exactly when some img src, after unescaping, matches
IMAGE_PATTERN; the first qualifying src becomes the logoUrl, and when no
image qualifies the status is Expired with an empty logoUrl. -/
theorem c2_active_iff_image (unesc : String → String) (link : String)
    (code : Nat) (url : String) (page : Page) (h200 : code = 200)
    (hdom : containsSubStr WHATSAPP_DOMAIN url = true)
    (ht1 : containsSubStr "expired" page.visibleText = false)
    (ht2 : containsSubStr "invalid" page.visibleText = false)
    (ht3 : containsSubStr "doesn\x27t exist" page.visibleText = false) :
    ((validate_link unesc link (.success code url page)).status = "Active" ↔
      page.imgSrcs.any (fun s => imagePatternMatch (unesc s)) = true) ∧
    (∀ u, firstQualifyingImg unesc page.imgSrcs = some u →
      (validate_link unesc link (.success code url page)).status = "Active" ∧
      (validate_link unesc link (.success code url page)).logoUrl = u) ∧
    (firstQualifyingImg unesc page.imgSrcs = none →
      (validate_link unesc link (.success code url page)).status = "Expired" ∧
      (validate_link unesc link (.success code url page)).logoUrl = "") := by
  subst h200
  cases hfi : firstQualifyingImg unesc page.imgSrcs with
  | none =>
    have hany := (firstQualifyingImg_none_iff unesc page.imgSrcs).mp hfi
    refine ⟨?_, ?_, ?_⟩
    · simp [validate_link, hdom, hfi, hany]
    · intro u hu; exact absurd hu (by simp)
    · intro _; simp [validate_link, hdom, hfi]
  | some u0 =>
    have hany : page.imgSrcs.any (fun s => imagePatternMatch (unesc s)) = true := by
      cases hA : page.imgSrcs.any (fun s => imagePatternMatch (unesc s)) with
      | true => rfl
      | false =>
        have hn := (firstQualifyingImg_none_iff unesc page.imgSrcs).mpr hA
        rw [hfi] at hn; exact absurd hn (by simp)
    refine ⟨?_, ?_, ?_⟩
    · simp [validate_link, hdom, hfi, hany]
    · intro u hu
      have hu0 : u0 = u := by injection hu
      subst hu0
      constructor <;> simp [validate_link, hdom, hfi]
    · intro h; exact absurd h (by simp)

/-- C2 witness: the theorem applied to a 200 on-domain page with a title
and one qualifying CDN image, yielding Active with that image as the
logo. -/
theorem c2_active_iff_image_witness :
    ((200 : Nat) = 200 ∧ containsSubStr WHATSAPP_DOMAIN lkA = true ∧
      containsSubStr "expired" "" = false ∧
      containsSubStr "invalid" "" = false ∧
      containsSubStr "doesn\x27t exist" "" = false) ∧
    (validate_link id lkA
      (.success 200 lkA ⟨some "Book Club", [goodSrc], ""⟩)).status = "Active" ∧
    (validate_link id lkA
      (.success 200 lkA ⟨some "Book Club", [goodSrc], ""⟩)).logoUrl = goodSrc :=
  ⟨⟨rfl, by decide, by decide, by decide, by decide⟩,
    (c2_active_iff_image id lkA 200 lkA ⟨some "Book Club", [goodSrc], ""⟩
      rfl (by decide) (by decide) (by decide) (by decide)).2.1 goodSrc (by decide)⟩

/- ## C3 -/

/-- C3: validate_link is a total function — for every input string and
every network outcome it returns exactly one record, never raises, and
its status is drawn from the four classification families of the code:
Active, Expired, Invalid Link, and the error statuses carrying their
detail (HTTP code, request failure, other exception). -/
theorem c3_status_totality (unesc : String → String) (link : String)
    (outcome : FetchOutcome) :
    (validate_link unesc link outcome).status = "Active" ∨
    (validate_link unesc link outcome).status = "Expired" ∨
    (validate_link unesc link outcome).status = "Invalid Link" ∨
    (∃ c : Nat,
      (validate_link unesc link outcome).status = "HTTP Error " ++ toString c) ∨
    (∃ m : String,
      (validate_link unesc link outcome).status = "Network Error: " ++ m) ∨
    (∃ m : String,
      (validate_link unesc link outcome).status = "Error: " ++ m) := by
  cases outcome with
  | requestError msg =>
    exact Or.inr (Or.inr (Or.inr (Or.inr (Or.inl ⟨msg, rfl⟩))))
  | otherError msg =>
    exact Or.inr (Or.inr (Or.inr (Or.inr (Or.inr ⟨msg, rfl⟩))))
  | success code url page =>
    by_cases h200 : code = 200
    · subst h200
      by_cases hdom : containsSubStr WHATSAPP_DOMAIN url = true
      · cases hfi : firstQualifyingImg unesc page.imgSrcs with
        | some u => exact Or.inl (by simp [validate_link, hdom, hfi])
        | none => exact Or.inr (Or.inl (by simp [validate_link, hdom, hfi]))
      · have hdom2 : containsSubStr WHATSAPP_DOMAIN url = false := by
          cases hcd : containsSubStr WHATSAPP_DOMAIN url
          · rfl
          · exact absurd hcd hdom
        exact Or.inr (Or.inr (Or.inl (by simp [validate_link, hdom2])))
    · exact Or.inr (Or.inr (Or.inr (Or.inl ⟨code, by simp [validate_link, h200]⟩)))

/- ## C7 -/

set_option maxRecDepth 8000 in
/-- C7 counterexample: manual entry of the same invite link on five lines
produces a candidate list of length 5, not a deduplicated set of size 1,
and one validation task is created per occurrence. -/
theorem c7_counterexample :
    (manual_mode_candidates fiveLines).length = 5 ∧
    ¬ ((manual_mode_candidates fiveLines).length = 1) ∧
    manual_mode_candidates fiveLines = [lkA, lkA, lkA, lkA, lkA] := by
  refine ⟨?_, ?_, ?_⟩ <;> decide

set_option maxRecDepth 8000 in
/-- C7 amended: only the search-and-scrape mode deduplicates — its
candidate set is duplicate-free and carries exactly the scraped links —
while manual entry keeps every duplicate occurrence and dispatches each
one. -/
theorem c7_dedup_only_in_search_mode :
    (∀ ls : List (List String), (search_mode_candidates ls).Nodup ∧
      ∀ l : String, l ∈ search_mode_candidates ls ↔ l ∈ ls.flatten) ∧
    manual_mode_candidates fiveLines = [lkA, lkA, lkA, lkA, lkA] := by
  constructor
  · intro ls
    exact ⟨List.nodup_dedup _, fun l => List.mem_dedup⟩
  · decide

/- ## C8 -/

/-- C8 counterexample: asking for five pages of results still issues a
single search request at offset 0 — there is no per-page request loop,
hence also no inter-page delay. -/
theorem c8_counterexample :
    google_search_requests "whatsapp group links" 5 =
      [⟨"whatsapp group links", 0⟩] ∧
    (google_search_requests "whatsapp group links" 5).length = 1 ∧
    ¬ ((google_search_requests "whatsapp group links" 5).length = 5) := by
  refine ⟨rfl, rfl, ?_⟩; decide

/-- C8 amended: google_search issues exactly one GET with start offset 0
regardless of the requested result count; the count only bounds how many
result divs are parsed out of that single response. -/
theorem c8_single_request_no_paging :
    ∀ (q : String) (topN : Nat),
      google_search_requests q topN = [⟨q, 0⟩] ∧
      (google_search_requests q topN).length = 1 ∧
      ∀ hrefs : List (Option String),
        (google_search_results hrefs topN).length ≤ topN := by
  intro q topN
  refine ⟨rfl, rfl, ?_⟩
  intro hrefs
  calc (google_search_results hrefs topN).length
      ≤ (hrefs.take topN).length := List.length_filterMap_le _ _
    _ ≤ topN := List.length_take_le _ _

/- ## C9 -/

/-- C9 counterexample: a live page whose og:title content is a single
space (non-empty, so the sentinel is not substituted) strips to the empty
string, producing an Active result with an empty groupName. -/
theorem c9_counterexample :
    (validate_link id lkA
      (.success 200 lkA ⟨some " ", [goodSrc], ""⟩)).status = "Active" ∧
    (validate_link id lkA
      (.success 200 lkA ⟨some " ", [goodSrc], ""⟩)).groupName = "" := by
  constructor <;> decide

/-- C9 amended: the logoUrl half of the invariant holds — whenever the
returned logoUrl is non-empty it matches IMAGE_PATTERN — but Active does
not guarantee a non-empty groupName. -/
theorem c9_logo_matches_pattern (unesc : String → String) (link : String)
    (outcome : FetchOutcome)
    (h : (validate_link unesc link outcome).logoUrl ≠ "") :
    imagePatternMatch (validate_link unesc link outcome).logoUrl = true := by
  cases outcome with
  | requestError msg => exact absurd rfl h
  | otherError msg => exact absurd rfl h
  | success code url page =>
    by_cases h200 : code = 200
    · subst h200
      by_cases hdom : containsSubStr WHATSAPP_DOMAIN url = true
      · cases hfi : firstQualifyingImg unesc page.imgSrcs with
        | some u =>
          have hl : (validate_link unesc link (.success 200 url page)).logoUrl = u := by
            simp [validate_link, hdom, hfi]
          rw [hl]
          exact firstQualifyingImg_match unesc page.imgSrcs u hfi
        | none => exact absurd (by simp [validate_link, hdom, hfi]) h
      · have hdom2 : containsSubStr WHATSAPP_DOMAIN url = false := by
          cases hcd : containsSubStr WHATSAPP_DOMAIN url
          · rfl
          · exact absurd hcd hdom
        exact absurd (by simp [validate_link, hdom2]) h
    · exact absurd (by simp [validate_link, h200]) h

/-- C9 witness: the amended theorem applied to a live page with one
qualifying CDN image. -/
theorem c9_logo_matches_pattern_witness :
    ((validate_link id lkA
      (.success 200 lkA ⟨some "Book Club", [goodSrc], ""⟩)).logoUrl ≠ "") ∧
    imagePatternMatch (validate_link id lkA
      (.success 200 lkA ⟨some "Book Club", [goodSrc], ""⟩)).logoUrl = true :=
  ⟨by decide,
    c9_logo_matches_pattern id lkA
      (.success 200 lkA ⟨some "Book Club", [goodSrc], ""⟩) (by decide)⟩

/- ## C10 -/

/-- C10: on a 200 on-domain page exposing a non-empty og:title content,
the returned groupName is that content unescaped, stripped of surrounding
whitespace, and with every character in the emoji ranges removed. -/
theorem c10_group_name_transform (unesc : String → String) (link : String)
    (code : Nat) (url : String) (page : Page) (c : String)
    (h200 : code = 200) (hdom : containsSubStr WHATSAPP_DOMAIN url = true)
    (ht : page.ogTitle = some c) (hc : c ≠ "") :
    (validate_link unesc link (.success code url page)).groupName =
      emojiSub (pyStripS (unesc c)) := by
  subst h200
  cases hfi : firstQualifyingImg unesc page.imgSrcs <;>
    simp [validate_link, hdom, ht, hc, hfi]

/-- C10 witness: the theorem applied to a title carrying surrounding
whitespace and an emoji, with the identity unescape oracle. -/
theorem c10_group_name_transform_witness :
    ((200 : Nat) = 200 ∧ containsSubStr WHATSAPP_DOMAIN lkA = true ∧
      (Page.mk (some " Book Club 😀") [goodSrc] "").ogTitle =
        some " Book Club 😀" ∧
      (" Book Club 😀" : String) ≠ "") ∧
    (validate_link id lkA
      (.success 200 lkA ⟨some " Book Club 😀", [goodSrc], ""⟩)).groupName =
      emojiSub (pyStripS (id " Book Club 😀")) :=
  ⟨⟨rfl, by decide, rfl, by decide⟩,
    c10_group_name_transform id lkA 200 lkA
      ⟨some " Book Club 😀", [goodSrc], ""⟩ " Book Club 😀"
      rfl (by decide) rfl (by decide)⟩

end App
